import Mathlib

/-!
Formal model of `cloudflare_uploader.py`: the `CloudflareImageUploader.upload_images`
routine (batch upload with per-image failure tolerance) and the `tensor2pil`
pixel conversion.  Images are abstract values (`List Img` stands for the batch
tensor, whose first dimension `shape[0]` is the batch size); the network is
modelled as a map from batch index to the observable outcome of that image's
HTTP interaction; float arithmetic in `tensor2pil` is idealised as exact
rational arithmetic.
-/

namespace CloudflareUploader

/-- Outcome of one iteration of the upload loop, as observed by the response
handling in `upload_images` (source lines 78-94): `ok id` is an HTTP 200
response whose JSON body has `success: true` and `result.id = id`; `reject`
is an HTTP 200 body with `success: false` (and its error messages);
`httpError` is a non-200 status with its body text; `raised` is any Python
exception thrown inside the `try` block (connection error, timeout,
malformed JSON, conversion failure), caught at source line 93. -/
inductive Outcome where
  | ok (id : String)
  | reject (msgs : List String)
  | httpError (status : Nat) (body : String)
  | raised (msg : String)
deriving Repr, DecidableEq

/-- HTTP request value constructed by an iteration of the upload loop
(source lines 67-76): the endpoint URL interpolating the account id, the
bearer-token authorization header, the zero-based batch index of the image
and the display filename sent in the multipart `file` field.  The request is
constructed identically on every iteration, before the response is seen. -/
structure Request where
  url : String
  auth : String
  idx : Nat
  filename : String
deriving Repr, DecidableEq

/-- Request built for batch index `i` (source lines 67-76): URL
`https://api.cloudflare.com/client/v4/accounts/{account_id}/images/v1`,
header `Authorization: Bearer {api_token}`, filename
`{filename_prefix}_{i}.png`. -/
def mkRequest (account_id api_token prefixStr : String) (i : Nat) : Request :=
  { url := "https://api.cloudflare.com/client/v4/accounts/" ++ account_id ++ "/images/v1",
    auth := "Bearer " ++ api_token,
    idx := i,
    filename := prefixStr ++ "_" ++ toString i ++ ".png" }

/-- State threaded through the upload loop: the trace of requests issued so
far and the `cloudflare_ids` accumulator (source line 54). -/
structure LoopState where
  requests : List Request
  cloudflare_ids : List String
deriving Repr, DecidableEq

/-- Effect of one iteration's response handling on the accumulator (source
lines 80-94): an `ok` outcome appends the returned id; a `reject`, a non-200
status or a caught exception only logs and leaves the accumulator unchanged. -/
def stepIds (net : Nat → Outcome) (i : Nat) (ids : List String) : List String :=
  match net i with
  | Outcome.ok id => ids ++ [id]
  | _ => ids

/-- The upload loop `for i in range(n)` (source lines 56-94), with `k`
iterations remaining and `i` the current index: each iteration converts the
image, constructs and issues its request, then handles the outcome; no
outcome stops the recursion, mirroring that the `except` clause at line 93
absorbs every exception and the loop continues. -/
def runLoopAux (account_id api_token prefixStr : String) (net : Nat → Outcome) :
    Nat → Nat → LoopState → LoopState
  | 0, _, s => s
  | Nat.succ k, i, s =>
      runLoopAux account_id api_token prefixStr net k (i + 1)
        { requests := s.requests ++ [mkRequest account_id api_token prefixStr i],
          cloudflare_ids := stepIds net i s.cloudflare_ids }

/-- The whole loop over a batch of `n` images, starting from index 0 with an
empty accumulator. -/
def runLoop (account_id api_token prefixStr : String) (net : Nat → Outcome) (n : Nat) :
    LoopState :=
  runLoopAux account_id api_token prefixStr net n 0 ⟨[], []⟩

/-- Identifier contributed by batch index `i`: `some id` exactly when the
outcome is HTTP 200 / `success: true` / `result.id = id`. -/
def okId (net : Nat → Outcome) (i : Nat) : Option String :=
  match net i with
  | Outcome.ok id => some id
  | _ => none

/-- Lower-case hexadecimal digit for `n < 16`. -/
def hexDigit (n : Nat) : Char :=
  if n < 10 then Char.ofNat (48 + n) else Char.ofNat (87 + n)

/-- Four-digit lower-case hexadecimal rendering of `n < 65536`. -/
def hex4 (n : Nat) : String :=
  String.mk [hexDigit (n / 4096 % 16), hexDigit (n / 256 % 16),
    hexDigit (n / 16 % 16), hexDigit (n % 16)]

/-- Escaping of one character inside a JSON string literal as Python's
`json.dumps` performs it with its default `ensure_ascii=True`: quote,
backslash and the short control escapes specially, other characters outside
printable ASCII as `\uXXXX` (a surrogate pair beyond the BMP), printable
ASCII verbatim. -/
def jsonEscapeChar (c : Char) : String :=
  if c = Char.ofNat 34 then "\\\""
  else if c = Char.ofNat 92 then "\\\\"
  else if c = Char.ofNat 10 then "\\n"
  else if c = Char.ofNat 9 then "\\t"
  else if c = Char.ofNat 13 then "\\r"
  else if c = Char.ofNat 8 then "\\b"
  else if c = Char.ofNat 12 then "\\f"
  else if c.toNat < 32 then "\\u" ++ hex4 c.toNat
  else if c.toNat < 127 then String.mk [c]
  else if c.toNat < 65536 then "\\u" ++ hex4 c.toNat
  else "\\u" ++ hex4 (55296 + (c.toNat - 65536) / 1024) ++
    "\\u" ++ hex4 (56320 + (c.toNat - 65536) % 1024)

/-- JSON string literal for `s`, per `json.dumps`. -/
def jsonQuote (s : String) : String :=
  "\"" ++ String.join (s.data.map jsonEscapeChar) ++ "\""

/-- Python's `json.dumps` applied to a list of strings (source line 101):
a bracketed list of JSON string literals joined by `", "` (the default
item separator). -/
def jsonDumps (ids : List String) : String :=
  "[" ++ String.intercalate ", " (ids.map jsonQuote) ++ "]"

/-- The final result-string encoding (source line 101):
`json.dumps(cloudflare_ids) if len(cloudflare_ids) > 1 else
cloudflare_ids[0] if cloudflare_ids else ""`. -/
def encodeResult (cloudflare_ids : List String) : String :=
  if 1 < cloudflare_ids.length then jsonDumps cloudflare_ids
  else
    match cloudflare_ids with
    | [] => ""
    | id :: _ => id

/-- Return value of `upload_images`.  The two guard paths (source lines
46-52) return a bare Python 2-tuple `(images, "")`; the main path (source
lines 97-102) returns a dict with a `ui` key holding the raw
`cloudflare_ids` list and a `result` key holding the
`(images, encoded-ids-string)` tuple.  `tuple` models the former,
`uiResult` the latter with its three observable fields. -/
inductive UploadRet (Img : Type) where
  | tuple (images : List Img) (idsStr : String)
  | uiResult (cloudflare_ids : List String) (images : List Img) (idsStr : String)
deriving Repr, DecidableEq

/-- The `upload_images` routine (source lines 32-102).  Alongside the return
value it yields the trace of HTTP requests issued, so that "no network
activity" on the guard paths is observable.  The first guard models Python's
`if not account_id or not api_token` (empty strings are falsy), the second
`if images.shape[0] == 0`. -/
def upload_images {Img : Type} (images : List Img)
    (account_id api_token prefixStr : String) (net : Nat → Outcome) :
    UploadRet Img × List Request :=
  if account_id = "" ∨ api_token = "" then (UploadRet.tuple images "", [])
  else if images.length = 0 then (UploadRet.tuple images "", [])
  else
    let s := runLoop account_id api_token prefixStr net images.length
    (UploadRet.uiResult s.cloudflare_ids images (encodeResult s.cloudflare_ids), s.requests)

/-- Per-pixel conversion of `tensor2pil` (source lines 116-117):
`np.clip(255. * v, 0, 255).astype(np.uint8)`.  After the clip the value is
in `[0, 255]`, where numpy's `uint8` cast truncates toward zero, which on a
nonnegative value is the floor. -/
def clipTrunc (v : ℚ) : ℕ :=
  (⌊min 255 (max 0 (255 * v))⌋).toNat

/-- The `tensor2pil` conversion on the pixel grid (source lines 105-118),
with the grid modelled as rows of rational pixel values and the PIL image by
its resulting rows of 8-bit values. -/
def tensor2pil (image : List (List ℚ)) : List (List ℕ) :=
  image.map (fun row => row.map clipTrunc)

/-- Clipping of `x` to `[lo, hi]`, stated the way the specification words
it ("clipping the product to [0, 255]"). -/
def specClip (lo hi x : ℚ) : ℚ :=
  if x < lo then lo else if hi < x then hi else x

/-- Truncation toward zero of a rational to an integer, the specification's
"round/truncate to integer". -/
def specTrunc (x : ℚ) : ℤ :=
  if 0 ≤ x then ⌊x⌋ else -⌊-x⌋

/-- The specification's per-pixel formula: multiply by 255, clip the product
to `[0, 255]`, truncate to an unsigned 8-bit integer. -/
def specPixelByte (v : ℚ) : ℕ :=
  (specTrunc (specClip 0 255 (255 * v))).toNat

/-- Closed form of the loop: starting at index `i` with `k` iterations left,
the final state extends the requests by the requests of indices
`i, i+1, ..., i+k-1` in order and the accumulator by the identifiers of the
successful ones among them, in order. -/
theorem runLoopAux_spec (account_id api_token prefixStr : String) (net : Nat → Outcome) :
    ∀ (k i : Nat) (s : LoopState),
      runLoopAux account_id api_token prefixStr net k i s =
        { requests :=
            s.requests ++ (List.range' i k).map (mkRequest account_id api_token prefixStr),
          cloudflare_ids := s.cloudflare_ids ++ (List.range' i k).filterMap (okId net) } := by
  intro k
  induction k with
  | zero => intro i s; simp [runLoopAux, List.range']
  | succ k ih =>
      intro i s
      rw [runLoopAux, ih]
      cases h : net i with
      | ok id => simp [List.range'_succ, stepIds, okId, h, List.filterMap_cons]
      | reject msgs => simp [List.range'_succ, stepIds, okId, h, List.filterMap_cons]
      | httpError status body => simp [List.range'_succ, stepIds, okId, h, List.filterMap_cons]
      | raised msg => simp [List.range'_succ, stepIds, okId, h, List.filterMap_cons]

/-- Closed form of the whole loop over a batch of `n` images. -/
theorem runLoop_spec (account_id api_token prefixStr : String) (net : Nat → Outcome) (n : Nat) :
    runLoop account_id api_token prefixStr net n =
      { requests := (List.range n).map (mkRequest account_id api_token prefixStr),
        cloudflare_ids := (List.range n).filterMap (okId net) } := by
  rw [runLoop, runLoopAux_spec]
  simp [List.range_eq_range']

/-- Closed form of `upload_images` on the main (non-guard) path. -/
theorem upload_images_main {Img : Type} (images : List Img)
    (account_id api_token prefixStr : String) (net : Nat → Outcome)
    (h1 : account_id ≠ "") (h2 : api_token ≠ "") (h3 : images ≠ []) :
    upload_images images account_id api_token prefixStr net =
      (UploadRet.uiResult ((List.range images.length).filterMap (okId net)) images
          (encodeResult ((List.range images.length).filterMap (okId net))),
        (List.range images.length).map (mkRequest account_id api_token prefixStr)) := by
  have hg : ¬(account_id = "" ∨ api_token = "") := by
    rintro (h | h)
    · exact h1 h
    · exact h2 h
  have hlen : ¬images.length = 0 := by simpa [List.length_eq_zero] using h3
  unfold upload_images
  rw [if_neg hg, if_neg hlen]
  simp only [runLoop_spec]

/-- The final encoding written as the three explicit cases of the claim:
JSON array for more than one id, the bare id for exactly one, the empty
string for none. -/
theorem encodeResult_cases (ids : List String) :
    encodeResult ids =
      if 1 < ids.length then jsonDumps ids
      else if ids.length = 1 then ids.headD "" else "" := by
  match ids with
  | [] => simp [encodeResult]
  | [a] => simp [encodeResult]
  | a :: b :: l =>
      have h : 1 < (a :: b :: l).length := by simp only [List.length_cons]; omega
      simp [encodeResult, h]

/-- When every index of `l` has a successful outcome, the loop collects one
identifier per index. -/
theorem filterMap_okId_length (net : Nat → Outcome) :
    ∀ l : List Nat, (∀ i ∈ l, ∃ id, net i = Outcome.ok id) →
      (l.filterMap (okId net)).length = l.length := by
  intro l
  induction l with
  | nil => intro _; rfl
  | cons a l ih =>
      intro h
      obtain ⟨id, hid⟩ := h a (List.mem_cons_self a l)
      have ht := ih (fun i hi => h i (List.mem_cons_of_mem a hi))
      simp [List.filterMap_cons, okId, hid, ht]

/-- The per-pixel conversion of the source agrees with the specification's
clip-then-truncate formula at every rational pixel value. -/
theorem clipTrunc_eq_spec (v : ℚ) : clipTrunc v = specPixelByte v := by
  unfold clipTrunc specPixelByte specClip specTrunc
  rcases lt_or_le (255 * v) 0 with h0 | h0
  · rw [if_pos h0, max_eq_left h0.le, min_eq_right (by norm_num : (0:ℚ) ≤ 255)]
    norm_num
  · rcases lt_or_le (255:ℚ) (255 * v) with h255 | h255
    · rw [if_neg (not_lt.mpr h0), if_pos h255, max_eq_right h0, min_eq_left h255.le]
      norm_num
    · rw [if_neg (not_lt.mpr h0), if_neg (not_lt.mpr h255), max_eq_right h0,
        min_eq_right h255, if_pos h0]

/-- C1: for every batch and every map of per-image outcomes, a failure on
one image (caught exception, non-200 status, or 200 with `success: false`)
never aborts the batch: the loop still issues its request for every index in
order, a failed image contributes no identifier, and the collected
identifiers are exactly those of the successful images in batch order. -/
theorem upload_images_survives_failures {Img : Type} (images : List Img)
    (account_id api_token prefixStr : String) (net : Nat → Outcome)
    (h1 : account_id ≠ "") (h2 : api_token ≠ "") (h3 : images ≠ []) :
    (upload_images images account_id api_token prefixStr net).2.map Request.idx =
        List.range images.length ∧
    (upload_images images account_id api_token prefixStr net).1 =
      UploadRet.uiResult ((List.range images.length).filterMap (okId net)) images
        (encodeResult ((List.range images.length).filterMap (okId net))) := by
  rw [upload_images_main images account_id api_token prefixStr net h1 h2 h3]
  constructor
  · simp [mkRequest, List.map_map, Function.comp_def]
  · rfl

/-- Witness for C1: transport failure on index 0, success on index 1. -/
theorem upload_images_survives_failures_witness :
    ("acc" : String) ≠ "" ∧ ("tok" : String) ≠ "" ∧ ([0, 1] : List Nat) ≠ [] ∧
    ((upload_images ([0, 1] : List Nat) "acc" "tok" "ComfyUI"
          (fun i => if i = 1 then Outcome.ok "abc123" else Outcome.raised "boom")).2.map
            Request.idx =
        List.range ([0, 1] : List Nat).length ∧
      (upload_images ([0, 1] : List Nat) "acc" "tok" "ComfyUI"
          (fun i => if i = 1 then Outcome.ok "abc123" else Outcome.raised "boom")).1 =
        UploadRet.uiResult
          ((List.range ([0, 1] : List Nat).length).filterMap
            (okId (fun i => if i = 1 then Outcome.ok "abc123" else Outcome.raised "boom")))
          [0, 1]
          (encodeResult ((List.range ([0, 1] : List Nat).length).filterMap
            (okId (fun i => if i = 1 then Outcome.ok "abc123" else Outcome.raised "boom"))))) :=
  ⟨by decide, by decide, by decide,
    upload_images_survives_failures [0, 1] "acc" "tok" "ComfyUI"
      (fun i => if i = 1 then Outcome.ok "abc123" else Outcome.raised "boom")
      (by decide) (by decide) (by decide)⟩

/-- C2: on every run that reaches the final encoding step, the returned
identifier string is the JSON array encoding of the collected identifiers
(in upload order) when more than one image succeeded, the bare identifier
when exactly one succeeded, and the empty string when none succeeded. -/
theorem upload_images_result_encoding {Img : Type} (images : List Img)
    (account_id api_token prefixStr : String) (net : Nat → Outcome)
    (h1 : account_id ≠ "") (h2 : api_token ≠ "") (h3 : images ≠ []) :
    (upload_images images account_id api_token prefixStr net).1 =
      UploadRet.uiResult ((List.range images.length).filterMap (okId net)) images
        (if 1 < ((List.range images.length).filterMap (okId net)).length then
          jsonDumps ((List.range images.length).filterMap (okId net))
        else if ((List.range images.length).filterMap (okId net)).length = 1 then
          ((List.range images.length).filterMap (okId net)).headD ""
        else "") := by
  rw [upload_images_main images account_id api_token prefixStr net h1 h2 h3,
    encodeResult_cases]

/-- Witness for C2: two successes, so the JSON-array branch is reached. -/
theorem upload_images_result_encoding_witness :
    ("acc" : String) ≠ "" ∧ ("tok" : String) ≠ "" ∧ ([0, 1] : List Nat) ≠ [] ∧
    (upload_images ([0, 1] : List Nat) "acc" "tok" "ComfyUI"
        (fun i => Outcome.ok (if i = 0 then "id1" else "id2"))).1 =
      UploadRet.uiResult
        ((List.range ([0, 1] : List Nat).length).filterMap
          (okId (fun i => Outcome.ok (if i = 0 then "id1" else "id2")))) [0, 1]
        (if 1 < ((List.range ([0, 1] : List Nat).length).filterMap
            (okId (fun i => Outcome.ok (if i = 0 then "id1" else "id2")))).length then
          jsonDumps ((List.range ([0, 1] : List Nat).length).filterMap
            (okId (fun i => Outcome.ok (if i = 0 then "id1" else "id2"))))
        else if ((List.range ([0, 1] : List Nat).length).filterMap
            (okId (fun i => Outcome.ok (if i = 0 then "id1" else "id2")))).length = 1 then
          ((List.range ([0, 1] : List Nat).length).filterMap
            (okId (fun i => Outcome.ok (if i = 0 then "id1" else "id2")))).headD ""
        else "") :=
  ⟨by decide, by decide, by decide,
    upload_images_result_encoding [0, 1] "acc" "tok" "ComfyUI"
      (fun i => Outcome.ok (if i = 0 then "id1" else "id2"))
      (by decide) (by decide) (by decide)⟩

/-- C3: for every input — any batch, any credentials, any per-image outcome
map, including one that raises an exception at every index — `upload_images`
returns a well-formed result carrying the input batch unchanged: either the
bare `(images, "")` tuple of the guard paths, or the ui/result value built
from some identifier list.  Raised exceptions are absorbed (`Outcome.raised`
contributes nothing and never stops evaluation), so no error propagates. -/
theorem upload_images_total {Img : Type} (images : List Img)
    (account_id api_token prefixStr : String) (net : Nat → Outcome) :
    (upload_images images account_id api_token prefixStr net).1 =
        UploadRet.tuple images "" ∨
    ∃ ids, (upload_images images account_id api_token prefixStr net).1 =
        UploadRet.uiResult ids images (encodeResult ids) := by
  by_cases hg : account_id = "" ∨ api_token = ""
  · left
    unfold upload_images
    rw [if_pos hg]
  · by_cases hl : images.length = 0
    · left
      unfold upload_images
      rw [if_neg hg, if_pos hl]
    · right
      have h1 : account_id ≠ "" := fun h => hg (Or.inl h)
      have h2 : api_token ≠ "" := fun h => hg (Or.inr h)
      have h3 : images ≠ [] := fun h => hl (by simp [h])
      refine ⟨(List.range images.length).filterMap (okId net), ?_⟩
      rw [upload_images_main images account_id api_token prefixStr net h1 h2 h3]

/-- C4: with an empty account id or an empty api token, no HTTP request is
issued and the input batch is returned unchanged with the empty identifier
string, whatever the batch and whatever the network would have answered. -/
theorem upload_images_missing_credentials {Img : Type} (images : List Img)
    (account_id api_token prefixStr : String) (net : Nat → Outcome)
    (h : account_id = "" ∨ api_token = "") :
    upload_images images account_id api_token prefixStr net =
      (UploadRet.tuple images "", []) := by
  unfold upload_images
  rw [if_pos h]

/-- Witness for C4: empty account id, a three-image batch. -/
theorem upload_images_missing_credentials_witness :
    (("" : String) = "" ∨ ("tok" : String) = "") ∧
    upload_images ([0, 1, 2] : List Nat) "" "tok" "ComfyUI" (fun _ => Outcome.ok "x") =
      (UploadRet.tuple [0, 1, 2] "", []) :=
  ⟨Or.inl rfl,
    upload_images_missing_credentials [0, 1, 2] "" "tok" "ComfyUI" (fun _ => Outcome.ok "x")
      (Or.inl rfl)⟩

/-- C5: with an empty batch, whatever the credentials, no HTTP request is
issued and the result is the input (empty) batch with the empty identifier
string. -/
theorem upload_images_empty_batch {Img : Type}
    (account_id api_token prefixStr : String) (net : Nat → Outcome) :
    upload_images ([] : List Img) account_id api_token prefixStr net =
      (UploadRet.tuple [] "", []) := by
  unfold upload_images
  by_cases hg : account_id = "" ∨ api_token = ""
  · rw [if_pos hg]
  · rw [if_neg hg]
    simp

/-- C6: for a non-empty batch, non-empty credentials and an outcome map
where every index succeeds with some id, the number of collected identifiers
equals the batch size and the returned batch is the input batch unchanged. -/
theorem upload_images_all_success {Img : Type} (images : List Img)
    (account_id api_token prefixStr : String) (net : Nat → Outcome)
    (h1 : account_id ≠ "") (h2 : api_token ≠ "") (h3 : images ≠ [])
    (hok : ∀ i, i < images.length → ∃ id, net i = Outcome.ok id) :
    ∃ ids, (upload_images images account_id api_token prefixStr net).1 =
        UploadRet.uiResult ids images (encodeResult ids) ∧
      ids.length = images.length := by
  refine ⟨(List.range images.length).filterMap (okId net), ?_, ?_⟩
  · rw [upload_images_main images account_id api_token prefixStr net h1 h2 h3]
  · rw [filterMap_okId_length net (List.range images.length)
      (fun i hi => hok i (List.mem_range.mp hi)), List.length_range]

/-- Witness for C6: a two-image batch where every upload succeeds. -/
theorem upload_images_all_success_witness :
    ("acc" : String) ≠ "" ∧ ("tok" : String) ≠ "" ∧ ([5, 7] : List Nat) ≠ [] ∧
    (∀ i, i < ([5, 7] : List Nat).length →
      ∃ id, (fun j => Outcome.ok ("id" ++ toString j)) i = Outcome.ok id) ∧
    ∃ ids, (upload_images ([5, 7] : List Nat) "acc" "tok" "ComfyUI"
          (fun j => Outcome.ok ("id" ++ toString j))).1 =
        UploadRet.uiResult ids [5, 7] (encodeResult ids) ∧
      ids.length = ([5, 7] : List Nat).length :=
  ⟨by decide, by decide, by decide, fun i _ => ⟨"id" ++ toString i, rfl⟩,
    upload_images_all_success [5, 7] "acc" "tok" "ComfyUI"
      (fun j => Outcome.ok ("id" ++ toString j)) (by decide) (by decide) (by decide)
      (fun i _ => ⟨"id" ++ toString i, rfl⟩)⟩

/-- C7: for every batch index `i` and every prefix, the request issued for
image `i` carries the display filename `{prefixStr}_{i}.png`, for every
outcome map — success or failure alike. -/
theorem upload_images_filename_pattern {Img : Type} (images : List Img)
    (account_id api_token prefixStr : String) (net : Nat → Outcome)
    (h1 : account_id ≠ "") (h2 : api_token ≠ "") (h3 : images ≠ [])
    (i : Nat) (hi : i < images.length) :
    ∃ req ∈ (upload_images images account_id api_token prefixStr net).2,
      req.idx = i ∧ req.filename = prefixStr ++ "_" ++ toString i ++ ".png" := by
  rw [upload_images_main images account_id api_token prefixStr net h1 h2 h3]
  exact ⟨mkRequest account_id api_token prefixStr i,
    List.mem_map_of_mem _ (List.mem_range.mpr hi), rfl, rfl⟩

/-- Witness for C7: a one-image batch whose upload fails; the filename is
still `ComfyUI_0.png`. -/
theorem upload_images_filename_pattern_witness :
    ("acc" : String) ≠ "" ∧ ("tok" : String) ≠ "" ∧ ([9] : List Nat) ≠ [] ∧
    0 < ([9] : List Nat).length ∧
    ∃ req ∈ (upload_images ([9] : List Nat) "acc" "tok" "ComfyUI"
        (fun _ => Outcome.raised "down")).2,
      req.idx = 0 ∧ req.filename = "ComfyUI" ++ "_" ++ toString 0 ++ ".png" :=
  ⟨by decide, by decide, by decide, by decide,
    upload_images_filename_pattern [9] "acc" "tok" "ComfyUI" (fun _ => Outcome.raised "down")
      (by decide) (by decide) (by decide) 0 (by decide)⟩

/-- C8: the 8-bit value `tensor2pil` encodes for every pixel equals the
specification formula applied to that pixel: multiply by 255, clip the
product to [0, 255], truncate to an unsigned 8-bit integer. -/
theorem tensor2pil_spec_formula (image : List (List ℚ)) :
    tensor2pil image = image.map (fun row => row.map specPixelByte) := by
  have h : clipTrunc = specPixelByte := funext clipTrunc_eq_spec
  simp [tensor2pil, h]

/-- C9: the shape of `upload_images`'s return value is not uniform: the two
guard paths (an empty credential, an empty batch) return the bare tuple
`(images, "")`, while every other path returns the ui/result value carrying
the raw identifier list and the `(images, encoded-string)` pair. -/
theorem upload_images_return_shape {Img : Type} (images : List Img)
    (account_id api_token prefixStr : String) (net : Nat → Outcome) :
    ((account_id = "" ∨ api_token = "" ∨ images = []) →
      (upload_images images account_id api_token prefixStr net).1 =
        UploadRet.tuple images "") ∧
    (account_id ≠ "" → api_token ≠ "" → images ≠ [] →
      (upload_images images account_id api_token prefixStr net).1 =
        UploadRet.uiResult ((List.range images.length).filterMap (okId net)) images
          (encodeResult ((List.range images.length).filterMap (okId net)))) := by
  constructor
  · rintro (h | h | h)
    · unfold upload_images
      rw [if_pos (Or.inl h)]
    · unfold upload_images
      rw [if_pos (Or.inr h)]
    · subst h
      unfold upload_images
      by_cases hg : account_id = "" ∨ api_token = ""
      · rw [if_pos hg]
      · rw [if_neg hg]
        simp
  · intro h1 h2 h3
    rw [upload_images_main images account_id api_token prefixStr net h1 h2 h3]

/-- Witness for C9: an empty account id yields the bare tuple; full
credentials on the same batch yield the ui/result value. -/
theorem upload_images_return_shape_witness :
    (upload_images ([3] : List Nat) "" "tok" "ComfyUI" (fun _ => Outcome.ok "x")).1 =
        UploadRet.tuple [3] "" ∧
    (upload_images ([3] : List Nat) "acc" "tok" "ComfyUI" (fun _ => Outcome.ok "x")).1 =
      UploadRet.uiResult
        ((List.range ([3] : List Nat).length).filterMap (okId (fun _ => Outcome.ok "x")))
        [3]
        (encodeResult ((List.range ([3] : List Nat).length).filterMap
          (okId (fun _ => Outcome.ok "x")))) :=
  ⟨(upload_images_return_shape [3] "" "tok" "ComfyUI" (fun _ => Outcome.ok "x")).1
      (Or.inl rfl),
    (upload_images_return_shape [3] "acc" "tok" "ComfyUI" (fun _ => Outcome.ok "x")).2
      (by decide) (by decide) (by decide)⟩

/-- C10: `tensor2pil` is total over the pixel range: every byte of the
converted grid is at most 255 (and, being a natural number, at least 0) for
any input values, including values below 0 or above 1, because the scaled
values are clipped before the unsigned-8-bit cast. -/
theorem tensor2pil_byte_range (image : List (List ℚ)) :
    ∀ row ∈ tensor2pil image, ∀ b ∈ row, b ≤ 255 := by
  intro row hrow b hb
  simp only [tensor2pil, List.mem_map] at hrow
  obtain ⟨r0, _, rfl⟩ := hrow
  rw [List.mem_map] at hb
  obtain ⟨v, _, rfl⟩ := hb
  unfold clipTrunc
  have h1 : min (255:ℚ) (max 0 (255 * v)) ≤ 255 := min_le_left _ _
  have h2 : ⌊min (255:ℚ) (max 0 (255 * v))⌋ ≤ (255:ℤ) := by
    have h255 : ⌊(255:ℚ)⌋ = (255:ℤ) := by norm_num
    have := Int.floor_le_floor h1
    rwa [h255] at this
  exact Int.toNat_le.mpr (by exact_mod_cast h2)

/-- Witness for C10: pixel values 2 and -1, outside [0, 1], convert to 255
and 0. -/
theorem tensor2pil_byte_range_witness :
    ([255, 0] : List ℕ) ∈ tensor2pil [[2, -1]] ∧ (255 : ℕ) ∈ ([255, 0] : List ℕ) ∧
    (255 : ℕ) ≤ 255 :=
  ⟨by simp +decide [tensor2pil, clipTrunc, min_def, max_def], by decide,
    tensor2pil_byte_range [[2, -1]] [255, 0]
      (by simp +decide [tensor2pil, clipTrunc, min_def, max_def]) 255 (by decide)⟩

end CloudflareUploader
